import Mathlib

/-!
Shallow embedding of the MCTC-MIB-A connection tester
(src/MCTC_TESTER.py and src/script.py).

The probe functions interact with a serial device through pyserial calls
(`serial.Serial`, `reset_input_buffer`, `reset_output_buffer`, `write`,
`readline`, `close`).  Each such call may either succeed or raise a Python
exception; `serial.SerialException` is caught separately from the generic
`Exception` catch-all.  We model one probe invocation by a `Device` record
that fixes, for each transport call, whether it succeeds or which kind of
exception it raises, and what bytes `readline` returns on success.  The
embedded probe returns the ordered list of transport events that completed
plus the Python string the function returns, translated branch-by-branch
from the source.
-/

/-- Kind of Python exception a transport call can raise: `serial.SerialException`
(caught by the first `except` clause of `test_connection`) or any other
`Exception` (caught by the generic second clause). -/
inductive PyExc
  | serialExc
  | otherExc
deriving DecidableEq, Repr

/-- Completed transport calls of one probe, in execution order:
successful `serial.Serial(...)` constructor, `reset_input_buffer()`,
`reset_output_buffer()`, `write(bs)`, `time.sleep` (milliseconds),
`readline()`, `close()`. -/
inductive Event
  | openOk
  | resetInput
  | resetOutput
  | writeBytes (bs : List Nat)
  | sleepMs (ms : Nat)
  | readLine
  | closePort
deriving DecidableEq, Repr

instance {ε α : Type} [DecidableEq ε] [DecidableEq α] :
    DecidableEq (Except ε α) := fun a b =>
  match a, b with
  | .error e1, .error e2 =>
    if h : e1 = e2 then .isTrue (by rw [h]) else .isFalse (by simp [h])
  | .error _, .ok _ => .isFalse (by simp)
  | .ok _, .error _ => .isFalse (by simp)
  | .ok a1, .ok a2 =>
    if h : a1 = a2 then .isTrue (by rw [h]) else .isFalse (by simp [h])

/-- Behaviour of the device/OS during one probe of `MCTCTester.test_connection`:
for each transport call, `none` means the call succeeds and `some e` means it
raises exception kind `e`; `readR` is the outcome of `ser.readline()` (the
returned line bytes, possibly empty, or a raised exception). -/
structure Device where
  openR : Option PyExc
  flushInR : Option PyExc
  flushOutR : Option PyExc
  writeR : Option PyExc
  readR : Except PyExc (List Nat)
deriving DecidableEq, Repr

/-- The fixed stimulus `b"*IDN?\r\n"` of both probe functions: 7 ASCII bytes
`2A 49 44 4E 3F 0D 0A`. -/
def testCommand : List Nat := [0x2A, 0x49, 0x44, 0x4E, 0x3F, 0x0D, 0x0A]

/-- Result string produced by the two `except` clauses of
`MCTCTester.test_connection`: `serial.SerialException` yields
`"SERIAL_ERROR"`, any other `Exception` yields `"UNKNOWN_ERROR"`. -/
def excResult : PyExc → String
  | .serialExc => "SERIAL_ERROR"
  | .otherExc => "UNKNOWN_ERROR"

/-- Whether Python `str.strip()` removes this character (ASCII whitespace:
space, tab, newline, carriage return, vertical tab, form feed). -/
def pyIsSpace (c : Char) : Bool :=
  c.toNat = 32 || c.toNat = 9 || c.toNat = 10 || c.toNat = 13 ||
    c.toNat = 11 || c.toNat = 12

/-- Python `str.strip()`: drop leading and trailing whitespace characters. -/
def pyStrip (s : List Char) : List Char :=
  ((s.dropWhile pyIsSpace).reverse.dropWhile pyIsSpace).reverse

/-- Whether a byte is a UTF-8 continuation byte (`0x80..0xBF`). -/
def isCont (b : Nat) : Bool := 0x80 ≤ b && b < 0xC0

/-- Strict UTF-8 decoding of a byte list, as Python `bytes.decode()` performs
(default `utf-8` codec): `none` when the bytes are not valid UTF-8 (stray
continuation bytes, truncated or overlong sequences, surrogates, code points
above `U+10FFFF`), in which case Python raises `UnicodeDecodeError`. -/
def utf8Decode : List Nat → Option (List Char)
  | [] => some []
  | b :: rest =>
    if b < 0x80 then
      (utf8Decode rest).map (fun cs => Char.ofNat b :: cs)
    else if b < 0xC2 then
      none
    else if b < 0xE0 then
      match rest with
      | b1 :: rest2 =>
        if isCont b1 then
          (utf8Decode rest2).map
            (fun cs => Char.ofNat ((b - 0xC0) * 0x40 + (b1 - 0x80)) :: cs)
        else none
      | _ => none
    else if b < 0xF0 then
      match rest with
      | b1 :: b2 :: rest2 =>
        if isCont b1 && isCont b2 then
          let cp := (b - 0xE0) * 0x1000 + (b1 - 0x80) * 0x40 + (b2 - 0x80)
          if cp < 0x800 || (0xD800 ≤ cp && cp < 0xE000) then none
          else (utf8Decode rest2).map (fun cs => Char.ofNat cp :: cs)
        else none
      | _ => none
    else if b < 0xF5 then
      match rest with
      | b1 :: b2 :: b3 :: rest2 =>
        if isCont b1 && isCont b2 && isCont b3 then
          let cp := (b - 0xF0) * 0x40000 + (b1 - 0x80) * 0x1000 +
            (b2 - 0x80) * 0x40 + (b3 - 0x80)
          if cp < 0x10000 || 0x10FFFF < cp then none
          else (utf8Decode rest2).map (fun cs => Char.ofNat cp :: cs)
        else none
      | _ => none
    else none

/-- `MCTCTester.test_connection` (src/MCTC_TESTER.py lines 60-111), as the
pair of the completed transport events and the returned result string.
Translated branch by branch: open the port; on success clear the input and
output buffers, write `b"*IDN?\r\n"`, `time.sleep(0.5)`, `readline()`;
classify a nonempty line by decoding it and stripping whitespace
(`SUCCESS` when nonempty after strip, else `EMPTY_RESPONSE`), an empty read
as `NO_RESPONSE`, then `ser.close()` and return.  A `serial.SerialException`
raised by any call is caught and yields `"SERIAL_ERROR"`; any other
exception (including the `UnicodeDecodeError` of `response.decode()`)
yields `"UNKNOWN_ERROR"`.  As in the source, `ser.close()` is only reached
on the branch with no exception after the open. -/
def test_connection (d : Device) : List Event × String :=
  match d.openR with
  | some e => ([], excResult e)
  | none =>
    match d.flushInR with
    | some e => ([.openOk], excResult e)
    | none =>
      match d.flushOutR with
      | some e => ([.openOk, .resetInput], excResult e)
      | none =>
        match d.writeR with
        | some e => ([.openOk, .resetInput, .resetOutput], excResult e)
        | none =>
          match d.readR with
          | .error e =>
            ([.openOk, .resetInput, .resetOutput, .writeBytes testCommand,
              .sleepMs 500], excResult e)
          | .ok response =>
            if response = [] then
              ([.openOk, .resetInput, .resetOutput, .writeBytes testCommand,
                .sleepMs 500, .readLine, .closePort], "NO_RESPONSE")
            else
              match utf8Decode response with
              | none =>
                ([.openOk, .resetInput, .resetOutput,
                  .writeBytes testCommand, .sleepMs 500, .readLine],
                  "UNKNOWN_ERROR")
              | some cs =>
                if pyStrip cs ≠ [] then
                  ([.openOk, .resetInput, .resetOutput,
                    .writeBytes testCommand, .sleepMs 500, .readLine,
                    .closePort], "SUCCESS")
                else
                  ([.openOk, .resetInput, .resetOutput,
                    .writeBytes testCommand, .sleepMs 500, .readLine,
                    .closePort], "EMPTY_RESPONSE")

/-- The complete transport-event sequence of a fully successful probe of
`test_connection`; every probe's event list is a prefix of it. -/
def fullTrace : List Event :=
  [.openOk, .resetInput, .resetOutput, .writeBytes testCommand,
   .sleepMs 500, .readLine, .closePort]

/-- Behaviour of the device during one call of `test_serial_connection`
(src/script.py), which performs only open, write and readline. -/
structure SDevice where
  openR : Option PyExc
  writeR : Option PyExc
  readR : Except PyExc (List Nat)
deriving DecidableEq, Repr

/-- `test_serial_connection` (src/script.py lines 5-39), as the list of
completed transport events.  The function opens the port, writes
`b"*IDN?\r\n"` with no buffer flush and no settle delay, calls `readline()`
immediately, decodes a nonempty response for printing, closes and returns
`None`; any exception is caught by the single generic handler (skipping the
close). -/
def test_serial_connection (d : SDevice) : List Event :=
  match d.openR with
  | some _ => []
  | none =>
    match d.writeR with
    | some _ => [.openOk]
    | none =>
      match d.readR with
      | .error _ => [.openOk, .writeBytes testCommand]
      | .ok response =>
        if response = [] then
          [.openOk, .writeBytes testCommand, .readLine, .closePort]
        else
          match utf8Decode response with
          | none => [.openOk, .writeBytes testCommand, .readLine]
          | some _ => [.openOk, .writeBytes testCommand, .readLine,
              .closePort]

/-- A port descriptor as produced by `serial.tools.list_ports.comports()`:
the `device` identifier and the free-text `description`. -/
structure PortInfo where
  device : String
  description : String
deriving DecidableEq, Repr

/-- `MCTCTester.test_all_ports` result collection (src/MCTC_TESTER.py lines
136-150): for each detected port in order, call
`test_connection(port.device, port.description)` and append
`(port.device, result)` to the results list.  The device behaviour is a
function of the device identifier (`env`). -/
def test_all_ports (env : String → Device) (ports : List PortInfo) :
    List (String × String) :=
  ports.map (fun p => (p.device, (test_connection (env p.device)).2))

/-- The summary loop of `MCTCTester.test_all_ports` (src/MCTC_TESTER.py lines
152-157): each collected `(port, result)` pair is displayed with status
`"✅ SUCCESS"` if `result == "SUCCESS"` and `"❌ FAILED"` otherwise. -/
def test_summary (results : List (String × String)) :
    List (String × String) :=
  results.map (fun pr => (pr.1,
    if pr.2 = "SUCCESS" then "✅ SUCCESS" else "❌ FAILED"))

/-- `MCTCTester.detect_ports` (src/MCTC_TESTER.py lines 26-40) over the
outcome of the platform listing call `serial.tools.list_ports.comports()`.
The listing call is not wrapped in any handler inside `detect_ports`, so a
raised exception propagates out unchanged (`Except.error`); on success the
method stores the list and returns `False` when it is empty and `True`
otherwise, together with the stored list. -/
def detect_ports (listing : Except String (List PortInfo)) :
    Except String (Bool × List PortInfo) :=
  match listing with
  | .error e => .error e
  | .ok ps => if ps = [] then .ok (false, ps) else .ok (true, ps)

/-- The closed set of strings `test_connection` can return. -/
def outcomeStrings : List String :=
  ["SUCCESS", "EMPTY_RESPONSE", "NO_RESPONSE", "SERIAL_ERROR",
   "UNKNOWN_ERROR"]

/-- A device whose probe fully succeeds with reply bytes `response`. -/
def replyingDevice (response : List Nat) : Device :=
  { openR := none, flushInR := none, flushOutR := none, writeR := none,
    readR := .ok response }

/-- The bytes of `"MCTC-100\r\n"`, the simulated identification reply. -/
def mctcReply : List Nat :=
  [0x4D, 0x43, 0x54, 0x43, 0x2D, 0x31, 0x30, 0x30, 0x0D, 0x0A]

/-- A probe in which the open succeeds but `ser.readline()` raises
`serial.SerialException` (for example the device is unplugged mid-probe). -/
def readFailDevice : Device :=
  { openR := none, flushInR := none, flushOutR := none, writeR := none,
    readR := .error .serialExc }

/-- A `script.py` probe in which the open succeeds but `ser.write` raises a
generic exception. -/
def writeFailSDevice : SDevice :=
  { openR := none, writeR := some .otherExc, readR := .ok [] }

/-- A device whose open raises `serial.SerialException` (port busy,
permission denied, nonexistent name). -/
def openFailDevice : Device :=
  { openR := some .serialExc, flushInR := none, flushOutR := none,
    writeR := none, readR := .ok [] }

/-- Environment for the three-port batch scenario: "COM2" fails to open
with a `serial.SerialException`; every other port replies `"MCTC-100\r\n"`. -/
def envABC : String → Device := fun dev =>
  if dev = "COM2" then openFailDevice else replyingDevice mctcReply

/-- The three descriptors of the batch scenario. -/
def portsABC : List PortInfo :=
  [{ device := "COM1", description := "A" },
   { device := "COM2", description := "B" },
   { device := "COM3", description := "C" }]

/-- A `script.py` probe whose open, write and read all succeed with a
well-formed reply. -/
def sGoodDevice : SDevice :=
  { openR := none, writeR := none, readR := .ok mctcReply }

example : (test_connection (replyingDevice mctcReply)).2 = "SUCCESS" := by
  decide

example : (test_connection (replyingDevice [0x0D, 0x0A])).2 =
    "EMPTY_RESPONSE" := by decide

example : (test_connection (replyingDevice [])).2 = "NO_RESPONSE" := by
  decide

example : (test_connection (replyingDevice [0xFF])).2 = "UNKNOWN_ERROR" := by
  decide

/-- Both `except` clauses of `test_connection` return one of the five
outcome strings. -/
theorem excResult_mem (e : PyExc) : excResult e ∈ outcomeStrings := by
  cases e <;> simp [excResult, outcomeStrings]

/-- Case analysis over every branch of `test_connection`: the returned
string is always one of the five outcome strings. -/
theorem test_connection_outcome_mem (d : Device) :
    (test_connection d).2 ∈ outcomeStrings := by
  obtain ⟨o, fi, fo, w, r⟩ := d
  rcases o with _ | e
  · rcases fi with _ | e
    · rcases fo with _ | e
      · rcases w with _ | e
        · rcases r with e | resp
          · exact excResult_mem e
          · by_cases h : resp = []
            · simp [test_connection, h, outcomeStrings]
            · rcases hdec : utf8Decode resp with _ | cs
              · simp [test_connection, h, hdec, outcomeStrings]
              · by_cases h2 : pyStrip cs = []
                · simp [test_connection, h, hdec, h2, outcomeStrings]
                · simp [test_connection, h, hdec, h2, outcomeStrings]
        · exact excResult_mem e
      · exact excResult_mem e
    · exact excResult_mem e
  · exact excResult_mem e

/-- Claim C9: for every device behaviour, the value returned by
`test_connection` is drawn from the closed set of exactly five strings
`SUCCESS`, `EMPTY_RESPONSE`, `NO_RESPONSE`, `SERIAL_ERROR`,
`UNKNOWN_ERROR`; in particular neither `DECODE_ERROR` nor `PORT_ERROR` is
ever returned. -/
theorem c9_outcome_closed_set :
    (∀ d : Device, (test_connection d).2 ∈ outcomeStrings) ∧
    outcomeStrings = ["SUCCESS", "EMPTY_RESPONSE", "NO_RESPONSE",
      "SERIAL_ERROR", "UNKNOWN_ERROR"] ∧
    ("DECODE_ERROR" : String) ∉ outcomeStrings ∧
    ("PORT_ERROR" : String) ∉ outcomeStrings :=
  ⟨test_connection_outcome_mem, rfl, by decide, by decide⟩

/-- Claim C1 (code bug): the claim demands exactly one close per successful
open on every branch, but in `test_connection` the `ser.close()` call is
only reached when no exception is raised after the open.  At the concrete
failing inputs below the probe opens the handle (one `openOk` event) and
returns with zero `closePort` events: when `readline` raises
`serial.SerialException`, when the reply bytes `[0x81]` fail to decode
(raising `UnicodeDecodeError`), and likewise in `script.py` when `write`
raises. -/
theorem c1_handle_leak_on_midprobe_failure :
    (test_connection readFailDevice).1.count Event.openOk = 1 ∧
    (test_connection readFailDevice).1.count Event.closePort = 0 ∧
    (test_connection readFailDevice).2 = "SERIAL_ERROR" ∧
    (test_connection (replyingDevice [0x81])).1.count Event.openOk = 1 ∧
    (test_connection (replyingDevice [0x81])).1.count Event.closePort = 0 ∧
    (test_connection (replyingDevice [0x81])).2 = "UNKNOWN_ERROR" ∧
    (test_serial_connection writeFailSDevice).count Event.openOk = 1 ∧
    (test_serial_connection writeFailSDevice).count Event.closePort = 0 := by
  decide

/-- Claim C2 counterexample: a successful open whose device replies with the
single undecodable byte `0xFF` makes `test_connection` return
`"UNKNOWN_ERROR"` — not `"DECODE_ERROR"` as the claim states (the source has
no such outcome; the `UnicodeDecodeError` falls into the generic
`except Exception` clause), though indeed not `"EMPTY_RESPONSE"` either. -/
theorem c2_counterexample_binary_reply_unknown_error :
    (test_connection (replyingDevice [0xFF])).2 = "UNKNOWN_ERROR" ∧
    (test_connection (replyingDevice [0xFF])).2 ≠ "DECODE_ERROR" ∧
    (test_connection (replyingDevice [0xFF])).2 ≠ "EMPTY_RESPONSE" := by
  decide

/-- Claim C2 as amended: when the open succeeds and the device replies with
nonempty bytes that are not valid UTF-8, `test_connection` returns the
catch-all `"UNKNOWN_ERROR"` (there is no distinct decode-error outcome), and
in particular never `"EMPTY_RESPONSE"`. -/
theorem c2_amended_undecodable_reply_unknown_error (d : Device)
    (resp : List Nat) (hOpen : d.openR = none) (hFI : d.flushInR = none)
    (hFO : d.flushOutR = none) (hW : d.writeR = none)
    (hR : d.readR = .ok resp) (hne : resp ≠ [])
    (hdec : utf8Decode resp = none) :
    (test_connection d).2 = "UNKNOWN_ERROR" := by
  obtain ⟨o, fi, fo, w, r⟩ := d
  simp only at hOpen hFI hFO hW hR
  subst hOpen hFI hFO hW hR
  simp [test_connection, hne, hdec]

/-- Witness for the amended C2 at the concrete undecodable reply
`[0xC3, 0x28]` (a lead byte with an invalid continuation). -/
theorem c2_amended_witness :
    (test_connection (replyingDevice [0xC3, 0x28])).2 = "UNKNOWN_ERROR" :=
  c2_amended_undecodable_reply_unknown_error (replyingDevice [0xC3, 0x28])
    [0xC3, 0x28] rfl rfl rfl rfl rfl (by decide) (by decide)

/-- Claim C3 counterexample: with a device whose open raises
`serial.SerialException`, `test_connection` returns the string
`"SERIAL_ERROR"`, not `"PORT_ERROR"` as the claim names the outcome. -/
theorem c3_counterexample_open_failure_serial_error :
    test_connection openFailDevice = ([], "SERIAL_ERROR") ∧
    ("SERIAL_ERROR" : String) ≠ "PORT_ERROR" := by
  decide

/-- Claim C3 as amended: every transport-layer failure — open, write or
read raising `serial.SerialException` — is returned as the ordinary string
`"SERIAL_ERROR"` (the code's name for the spec's transport-failure
outcome), and for every device behaviour the probe returns one of the five
outcome strings rather than propagating any failure. -/
theorem c3_amended_transport_failures_contained :
    (∀ d : Device, d.openR = some PyExc.serialExc →
      test_connection d = ([], "SERIAL_ERROR")) ∧
    (∀ d : Device, d.openR = none → d.flushInR = none →
      d.flushOutR = none → d.writeR = some PyExc.serialExc →
      (test_connection d).2 = "SERIAL_ERROR") ∧
    (∀ d : Device, d.openR = none → d.flushInR = none →
      d.flushOutR = none → d.writeR = none →
      d.readR = .error PyExc.serialExc →
      (test_connection d).2 = "SERIAL_ERROR") ∧
    (∀ d : Device, (test_connection d).2 ∈ outcomeStrings) := by
  refine ⟨?_, ?_, ?_, test_connection_outcome_mem⟩
  · intro d h
    obtain ⟨o, fi, fo, w, r⟩ := d
    simp only at h
    subst h
    rfl
  · intro d h1 h2 h3 h4
    obtain ⟨o, fi, fo, w, r⟩ := d
    simp only at h1 h2 h3 h4
    subst h1 h2 h3 h4
    rfl
  · intro d h1 h2 h3 h4 h5
    obtain ⟨o, fi, fo, w, r⟩ := d
    simp only at h1 h2 h3 h4 h5
    subst h1 h2 h3 h4 h5
    rfl

/-- Witness for the amended C3 at the concrete open-failure device. -/
theorem c3_amended_witness :
    test_connection openFailDevice = ([], "SERIAL_ERROR") :=
  c3_amended_transport_failures_contained.1 openFailDevice rfl

/-- Claim C4 counterexample: the classification after a successful open is
not a total three-way function of the received line — the nonempty reply
`[0x80]` (a stray continuation byte that cannot decode) yields the fourth
value `"UNKNOWN_ERROR"`, outside {NO_RESPONSE, EMPTY_RESPONSE, SUCCESS}. -/
theorem c4_counterexample_undecodable_fourth_outcome :
    (test_connection (replyingDevice [0x80])).2 = "UNKNOWN_ERROR" ∧
    (test_connection (replyingDevice [0x80])).2 ∉
      (["NO_RESPONSE", "EMPTY_RESPONSE", "SUCCESS"] : List String) := by
  decide

/-- Claim C4 as amended: for every probe whose open, flushes and write
succeed and whose read returns bytes that decode under UTF-8, the outcome
is exactly three-way: `NO_RESPONSE` exactly when the read yielded zero
bytes, `EMPTY_RESPONSE` exactly when bytes arrived but the decoded text is
empty after stripping whitespace, and `SUCCESS` exactly when the stripped
decoded text is nonempty (no further content validation).  Undecodable
bytes fall outside this classification into `UNKNOWN_ERROR`. -/
theorem c4_amended_three_way_classification (d : Device) (resp : List Nat)
    (cs : List Char) (hOpen : d.openR = none) (hFI : d.flushInR = none)
    (hFO : d.flushOutR = none) (hW : d.writeR = none)
    (hR : d.readR = .ok resp) (hdec : utf8Decode resp = some cs) :
    ((test_connection d).2 = "NO_RESPONSE" ↔ resp = []) ∧
    ((test_connection d).2 = "EMPTY_RESPONSE" ↔
      (resp ≠ [] ∧ pyStrip cs = [])) ∧
    ((test_connection d).2 = "SUCCESS" ↔
      (resp ≠ [] ∧ pyStrip cs ≠ [])) := by
  obtain ⟨o, fi, fo, w, r⟩ := d
  simp only at hOpen hFI hFO hW hR
  subst hOpen hFI hFO hW hR
  by_cases h : resp = []
  · subst h
    simp [test_connection]
  · by_cases h2 : pyStrip cs = [] <;>
      simp [test_connection, h, hdec, h2]

/-- Witness for the amended C4 at the concrete one-byte reply `[0x41]`
(the letter A), which decodes to a nonempty stripped text. -/
theorem c4_amended_witness :
    ((test_connection (replyingDevice [0x41])).2 = "NO_RESPONSE" ↔
      ([0x41] : List Nat) = []) ∧
    ((test_connection (replyingDevice [0x41])).2 = "EMPTY_RESPONSE" ↔
      (([0x41] : List Nat) ≠ [] ∧ pyStrip [Char.ofNat 0x41] = [])) ∧
    ((test_connection (replyingDevice [0x41])).2 = "SUCCESS" ↔
      (([0x41] : List Nat) ≠ [] ∧ pyStrip [Char.ofNat 0x41] ≠ [])) :=
  c4_amended_three_way_classification (replyingDevice [0x41]) [0x41]
    [Char.ofNat 0x41] rfl rfl rfl rfl rfl (by decide)

/-- Claim C5 counterexample: in the batch over ports COM1, COM2, COM3 where
COM2 fails to open, COM2's collected result is the string `"SERIAL_ERROR"`,
not `"PORT_ERROR"` as the claim states. -/
theorem c5_counterexample_failed_open_not_port_error :
    (test_all_ports envABC portsABC)[1]? = some ("COM2", "SERIAL_ERROR") ∧
    some (("COM2" : String), ("SERIAL_ERROR" : String)) ≠
      some (("COM2" : String), ("PORT_ERROR" : String)) := by
  decide

/-- Claim C5 as amended: `test_all_ports` probes every descriptor exactly
once in input order with no short-circuiting — the result list has the
input's length and its i-th pair carries the i-th descriptor's `device`
together with the result of probing that device alone (so one port's
failure cannot affect another's result).  In the concrete [A, B, C] batch
where B ("COM2") fails to open, the results are, in order, SUCCESS for
COM1, `"SERIAL_ERROR"` (the code's transport-failure string) for COM2, and
SUCCESS for COM3. -/
theorem c5_amended_probe_all_order_and_independence :
    (∀ (env : String → Device) (ports : List PortInfo),
      (test_all_ports env ports).length = ports.length) ∧
    (∀ (env : String → Device) (ports : List PortInfo) (i : Nat),
      (test_all_ports env ports)[i]? =
        (ports[i]?).map
          (fun p => (p.device, (test_connection (env p.device)).2))) ∧
    test_all_ports envABC portsABC =
      [("COM1", "SUCCESS"), ("COM2", "SERIAL_ERROR"),
       ("COM3", "SUCCESS")] := by
  refine ⟨?_, ?_, by decide⟩
  · intro env ports
    simp [test_all_ports]
  · intro env ports i
    simp [test_all_ports]

/-- Claim C6 counterexample: a failure of the platform listing call is not
reported as any returned outcome (there is no `ENUMERATION_ERROR`): the
exception propagates out of `detect_ports` unchanged. -/
theorem c6_counterexample_listing_failure_propagates :
    detect_ports (Except.error "boom") = Except.error "boom" := by
  rfl

/-- Claim C6 as amended: an empty port list is a normal, representable
return of `detect_ports` (it stores the empty list and returns the flag
`False` without raising), a nonempty list returns `True` with the list, and
a failure of the underlying listing call propagates as an exception out of
`detect_ports` rather than being reported as a distinct outcome — the two
cases are distinguishable, but no `ENUMERATION_ERROR` outcome exists. -/
theorem c6_amended_empty_normal_failure_propagates :
    detect_ports (Except.ok []) = Except.ok (false, []) ∧
    (∀ ps : List PortInfo, ps ≠ [] →
      detect_ports (Except.ok ps) = Except.ok (true, ps)) ∧
    (∀ e : String, detect_ports (Except.error e) = Except.error e) := by
  refine ⟨rfl, ?_, fun e => rfl⟩
  intro ps h
  simp [detect_ports, h]

/-- Witness for the amended C6 at a concrete one-element port list. -/
theorem c6_amended_witness :
    detect_ports (Except.ok [{ device := "COM1", description := "d" }]) =
      Except.ok (true, [{ device := "COM1", description := "d" }]) :=
  c6_amended_empty_normal_failure_propagates.2.1
    [{ device := "COM1", description := "d" }] (by decide)

/-- The event list of a `test_connection` probe is one of seven shapes, each
a prefix of `fullTrace`, depending on where the first failure (if any)
occurred. -/
theorem test_connection_trace_cases (d : Device) :
    (test_connection d).1 ∈ [([] : List Event), [Event.openOk],
      [Event.openOk, Event.resetInput],
      [Event.openOk, Event.resetInput, Event.resetOutput],
      [Event.openOk, Event.resetInput, Event.resetOutput,
        Event.writeBytes testCommand, Event.sleepMs 500],
      [Event.openOk, Event.resetInput, Event.resetOutput,
        Event.writeBytes testCommand, Event.sleepMs 500, Event.readLine],
      fullTrace] := by
  obtain ⟨o, fi, fo, w, r⟩ := d
  rcases o with _ | e
  · rcases fi with _ | e
    · rcases fo with _ | e
      · rcases w with _ | e
        · rcases r with e | resp
          · simp [test_connection]
          · by_cases h : resp = []
            · simp [test_connection, h, fullTrace]
            · rcases hdec : utf8Decode resp with _ | cs
              · simp [test_connection, h, hdec]
              · by_cases h2 : pyStrip cs = [] <;>
                  simp [test_connection, h, hdec, h2, fullTrace]
        · simp [test_connection]
      · simp [test_connection]
    · simp [test_connection]
  · simp [test_connection]

/-- The event list of a `test_serial_connection` probe is one of five
shapes; none contains a buffer flush or a sleep. -/
theorem test_serial_connection_trace_cases (d : SDevice) :
    test_serial_connection d ∈ [([] : List Event), [Event.openOk],
      [Event.openOk, Event.writeBytes testCommand],
      [Event.openOk, Event.writeBytes testCommand, Event.readLine],
      [Event.openOk, Event.writeBytes testCommand, Event.readLine,
        Event.closePort]] := by
  obtain ⟨o, w, r⟩ := d
  rcases o with _ | e
  · rcases w with _ | e
    · rcases r with e | resp
      · simp [test_serial_connection]
      · by_cases h : resp = []
        · simp [test_serial_connection, h]
        · rcases hdec : utf8Decode resp with _ | cs
          · simp [test_serial_connection, h, hdec]
          · simp [test_serial_connection, h, hdec]
    · simp [test_serial_connection]
  · simp [test_serial_connection]

/-- Claim C7 counterexample: a fully successful `script.py` probe
(`test_serial_connection`) produces the events open, write, read, close —
with no input/output buffer flush and no settle sleep between write and
read — so the two steps do not occur on every probe of the program. -/
theorem c7_counterexample_script_probe_without_flush_or_settle :
    test_serial_connection sGoodDevice =
      [Event.openOk, Event.writeBytes testCommand, Event.readLine,
       Event.closePort] ∧
    Event.resetInput ∉ test_serial_connection sGoodDevice ∧
    Event.resetOutput ∉ test_serial_connection sGoodDevice ∧
    Event.sleepMs 500 ∉ test_serial_connection sGoodDevice := by
  decide

/-- Claim C7 as amended: in `MCTCTester.test_connection`, every probe's
event list is a prefix of `fullTrace` — open, flush input, flush output,
write, sleep 500 ms, readline, close, in that order — so whenever the open
succeeds, both buffers are flushed before any bytes are transmitted and
the 0.5-second settle delay separates the write from the read.  The
`script.py` probe `test_serial_connection`, by contrast, never flushes a
buffer and never sleeps. -/
theorem c7_amended_mctc_flush_then_settle_order :
    (∀ d : Device, ∃ t : List Event,
      (test_connection d).1 ++ t = fullTrace) ∧
    (∀ d : SDevice, Event.resetInput ∉ test_serial_connection d ∧
      Event.resetOutput ∉ test_serial_connection d ∧
      ∀ ms : Nat, Event.sleepMs ms ∉ test_serial_connection d) := by
  constructor
  · intro d
    have h := test_connection_trace_cases d
    simp only [List.mem_cons, List.not_mem_nil, or_false] at h
    rcases h with h | h | h | h | h | h | h <;> rw [h]
    · exact ⟨fullTrace, rfl⟩
    · exact ⟨[Event.resetInput, Event.resetOutput,
        Event.writeBytes testCommand, Event.sleepMs 500, Event.readLine,
        Event.closePort], rfl⟩
    · exact ⟨[Event.resetOutput, Event.writeBytes testCommand,
        Event.sleepMs 500, Event.readLine, Event.closePort], rfl⟩
    · exact ⟨[Event.writeBytes testCommand, Event.sleepMs 500,
        Event.readLine, Event.closePort], rfl⟩
    · exact ⟨[Event.readLine, Event.closePort], rfl⟩
    · exact ⟨[Event.closePort], rfl⟩
    · exact ⟨[], by simp⟩
  · intro d
    have h := test_serial_connection_trace_cases d
    simp only [List.mem_cons, List.not_mem_nil, or_false] at h
    rcases h with h | h | h | h | h <;> rw [h] <;>
      exact ⟨by simp, by simp, fun ms => by simp⟩

/-- Claim C8: the stimulus `testCommand` is exactly the 7 ASCII bytes
`2A 49 44 4E 3F 0D 0A` (`"*IDN?\r\n"`); every write event of either probe
carries exactly these bytes (it is the only probe command); and when a
nonempty line is received and decodes, the classification is applied to
the whitespace-stripped decoded text. -/
theorem c8_fixed_stimulus_and_trimmed_line :
    testCommand = [0x2A, 0x49, 0x44, 0x4E, 0x3F, 0x0D, 0x0A] ∧
    testCommand.length = 7 ∧
    (∀ (d : Device) (bs : List Nat),
      Event.writeBytes bs ∈ (test_connection d).1 → bs = testCommand) ∧
    (∀ (d : SDevice) (bs : List Nat),
      Event.writeBytes bs ∈ test_serial_connection d → bs = testCommand) ∧
    (∀ (d : Device) (resp : List Nat) (cs : List Char),
      d.openR = none → d.flushInR = none → d.flushOutR = none →
      d.writeR = none → d.readR = .ok resp → resp ≠ [] →
      utf8Decode resp = some cs →
      (test_connection d).2 =
        if pyStrip cs ≠ [] then "SUCCESS" else "EMPTY_RESPONSE") := by
  refine ⟨rfl, rfl, ?_, ?_, ?_⟩
  · intro d bs hmem
    have h := test_connection_trace_cases d
    simp only [List.mem_cons, List.not_mem_nil, or_false] at h
    rcases h with h | h | h | h | h | h | h <;> rw [h] at hmem <;>
      simp [fullTrace] at hmem <;> exact hmem
  · intro d bs hmem
    have h := test_serial_connection_trace_cases d
    simp only [List.mem_cons, List.not_mem_nil, or_false] at h
    rcases h with h | h | h | h | h <;> rw [h] at hmem <;>
      simp at hmem <;> exact hmem
  · intro d resp cs hOpen hFI hFO hW hR hne hdec
    obtain ⟨o, fi, fo, w, r⟩ := d
    simp only at hOpen hFI hFO hW hR
    subst hOpen hFI hFO hW hR
    by_cases h2 : pyStrip cs = [] <;>
      simp [test_connection, hne, hdec, h2]

/-- Witness for C8 at the concrete reply `[0x42]` (the letter B). -/
theorem c8_stimulus_witness :
    (test_connection (replyingDevice [0x42])).2 =
      if pyStrip [Char.ofNat 0x42] ≠ [] then "SUCCESS"
      else "EMPTY_RESPONSE" :=
  c8_fixed_stimulus_and_trimmed_line.2.2.2.2 (replyingDevice [0x42])
    [0x42] [Char.ofNat 0x42] rfl rfl rfl rfl rfl (by decide) (by decide)

/-- Claim C10: the summary loop maps each collected `(port, result)` pair,
in place, to the status `"✅ SUCCESS"` exactly when the result equals
`"SUCCESS"` and to `"❌ FAILED"` for every other result string. -/
theorem c10_summary_success_iff (results : List (String × String))
    (i : Nat) (dev res : String) (h : results[i]? = some (dev, res)) :
    (test_summary results)[i]? =
      some (dev,
        if res = "SUCCESS" then "✅ SUCCESS" else "❌ FAILED") ∧
    ((if res = "SUCCESS" then "✅ SUCCESS" else "❌ FAILED") =
      "✅ SUCCESS" ↔ res = "SUCCESS") := by
  constructor
  · simp [test_summary, h]
  · by_cases hr : res = "SUCCESS"
    · simp [hr]
    · have hne : ("❌ FAILED" : String) ≠ "✅ SUCCESS" := by decide
      simp [hr, hne]

/-- Witness for C10: a port whose result is `EMPTY_RESPONSE` is displayed
as FAILED in the summary. -/
theorem c10_summary_witness :
    (test_summary [("COM4", "EMPTY_RESPONSE")])[0]? =
      some (("COM4" : String),
        if ("EMPTY_RESPONSE" : String) = "SUCCESS" then "✅ SUCCESS"
        else "❌ FAILED") ∧
    ((if ("EMPTY_RESPONSE" : String) = "SUCCESS" then "✅ SUCCESS"
      else "❌ FAILED") = "✅ SUCCESS" ↔
      ("EMPTY_RESPONSE" : String) = "SUCCESS") :=
  c10_summary_success_iff [("COM4", "EMPTY_RESPONSE")] 0 "COM4"
    "EMPTY_RESPONSE" rfl
